import Mathlib

/-!
# storage-eventd: the `exec` action (`src/actions/exec.c`)

A shallow embedding of the `exec` action handler: `setup_argv`, `setup_env`,
`setup`, `export_uevent_properties`, `export_properties` and `execute`.

Conventions of the embedding.

* A C string is a `String`; the terminating NUL is the end of the character
  list, and a `char *` into a string is the string plus an offset.
* An array of pointers is a list of `Option`s, `none` being `NULL`.
* Functions that live in other translation units (`util.c`, `subst.c`,
  `config.c`, `uevent.c`), in GLib or in libc are fields of the records
  `Collab` (load time) and `World` (run time); their results are arbitrary.
* System calls and collaborator calls with an effect are recorded, in
  program order, in a list of `Call`s.
* `calloc`/`zalloc` are taken to succeed; the `-ENOMEM` branches are left out.
* A loop that is not structurally bounded takes fuel; `Result.timeout` means
  the loop was still running when the fuel ran out.
-/

namespace ExecAction

/-! ## Constants -/

/-- Value of `ENOENT` in `errno.h`. -/
def ENOENT : Int := 2

/-- Value of `EINVAL` in `errno.h`. -/
def EINVAL : Int := 22

/-- Number of values of `uid_t` / `gid_t` (unsigned 32 bit). -/
def ID_MOD : Int := 4294967296

/-- Conversion of an `int` to `uid_t` / `gid_t`, as done by the assignments
`action->uid = config_setting_get_int(uid)` (line 214) and line 257. -/
def to_id (n : Int) : Nat := (n % ID_MOD).toNat

/-! ## Data model -/

/-- A compiled template (`struct subst_vec`, declared in `subst.h`): its layout is not
visible to this file, so only the text it was compiled from is kept. -/
structure subst_vec where
  text : String
deriving DecidableEq, Repr

/-- The `struct env_var` of lines 25-28; `value = none` is the NULL pointer. -/
structure env_var where
  name : String
  value : Option subst_vec
deriving DecidableEq, Repr

/-- The `struct exec_action` of lines 30-39.  `argc` and `argv` are one list
(they are only written together, lines 83-84); `envp` is the array of
`struct env_var *`, `none` being a NULL slot. -/
structure exec_action where
  argv : List subst_vec
  envc : Nat
  envp : List (Option env_var)
  uid : Nat
  gid : Nat
deriving DecidableEq, Repr

/-- The action as `zalloc` leaves it (line 173): every field zero. -/
def zalloc_action : exec_action :=
  { argv := [], envc := 0, envp := [], uid := 0, gid := 0 }

/-- A scalar element of a libconfig aggregate. -/
inductive config_elem where
  | string (s : String)
  | int (n : Int)
  | other
deriving DecidableEq, Repr

/-- A libconfig setting (`config_setting_t`), as far as this file inspects it:
a string, an int, an aggregate (array or list) or something else. -/
inductive config_setting_t where
  | string (s : String)
  | int (n : Int)
  | aggregate (elems : List config_elem)
  | other
deriving DecidableEq, Repr

/-- The group setting of one action: its members by name. -/
abbrev config_group := List (String × config_setting_t)

/-- The libconfig call `config_setting_get_member`: first member of that name. -/
def config_setting_get_member (setting : config_group) (name : String) :
    Option config_setting_t :=
  (setting.find? (fun m => m.1 == name)).map (fun m => m.2)

/-- Result of running a function of the source. -/
inductive Result (α : Type) where
  | ret (a : α)
  | fault
  | timeout
deriving DecidableEq, Repr

/-- Collaborators used at load time. -/
structure Collab where
  /-- GLib `g_shell_parse_argv`: `none` on failure, else the argument strings. -/
  g_shell_parse_argv : String → Option (List String)
  /-- The compiler `subst_tokenize` of `subst.c`: return code and compiled template. -/
  subst_tokenize : String → Int × subst_vec
  /-- The lookup `util_get_user`: return code, uid, primary gid. -/
  util_get_user : String → Int × Nat × Nat
  /-- The lookup `util_get_user_by_uid`: return code, primary gid. -/
  util_get_user_by_uid : Nat → Int × Nat
  /-- The lookup `util_get_group`: return code, gid. -/
  util_get_group : String → Int × Nat

/-! ## `setup_env` -/

/-- The libc predicate `isalnum` in the C locale. -/
def isalnum (c : Char) : Bool := c.isAlphanum

/-- The `while` loop of lines 141-149.  `s` is the entry, `off` the offset of
the pointer `value` into it, `ret` the current return code.  The result is the
offset and return code on leaving the loop, `none` when the fuel is used up.
The body has no statement that advances `value`. -/
def scan_name (s : List Char) : Nat → Nat → Int → Option (Nat × Int)
  | 0, _, _ => none
  | fuel + 1, off, ret =>
    match s[off]? with
    | none => some (off, ret)
    | some c =>
      if c = '=' then some (off, ret)
      else if !isalnum c && c != '_' then some (off, -EINVAL)
      else scan_name s fuel off ret

/-- Modelled from the spec: `config_setting_fill_string_vector` of `config.c`,
which is not in this file.  A string setting gives its one string, an
aggregate of strings gives them in order, anything else is an error. -/
def config_setting_fill_string_vector (env : config_setting_t) :
    Except Int (List String) :=
  match env with
  | .string s => .ok [s]
  | .aggregate elems =>
    elems.foldr (fun e acc =>
      match e, acc with
      | .string s, .ok rest => .ok (s :: rest)
      | .string _, .error r => .error r
      | _, _ => .error (-EINVAL)) (.ok [])
  | _ => .error (-EINVAL)

/-- The assignment `action->envp[i]->name = ...` of line 151: `none` when the
slot `action->envp[i]` holds no `struct env_var` to write to. -/
def store_env_name (a : exec_action) (i : Nat) (name : String) : Option exec_action :=
  match a.envp[i]? with
  | some (some ev) => some { a with envp := a.envp.set i (some { ev with name := name }) }
  | _ => none

/-- The assignment through `&action->envp[i]->value` of line 155. -/
def store_env_value (a : exec_action) (i : Nat) (v : subst_vec) : exec_action :=
  match a.envp[i]? with
  | some (some ev) => { a with envp := a.envp.set i (some { ev with value := some v }) }
  | _ => a

/-- The `for` loop of lines 137-158 from index `i` on; `entries` are
`envp[i]`, `envp[i+1]`, ... up to the terminating NULL. -/
def setup_env_loop (C : Collab) (fuel : Nat) :
    List String → Nat → Int → exec_action → Result (Int × exec_action)
  | [], _, ret, a => .ret (ret, a)
  | e :: es, i, ret, a =>
    match scan_name e.data fuel 0 ret with
    | none => .timeout
    | some (off, ret1) =>
      match store_env_name a i (String.mk (e.data.take off)) with
      | none => .fault
      | some a1 =>
        if e.data[off]? != some '=' then
          setup_env_loop C fuel es (i + 1) ret1 a1
        else
          let r := C.subst_tokenize (String.mk (e.data.drop (off + 1)))
          if r.1 != 0 then .ret (r.1, a1)
          else setup_env_loop C fuel es (i + 1) r.1 (store_env_value a1 i r.2)

/-- Lines 124-162 of `setup_env`, given what `config_setting_fill_string_vector`
(line 124) produced. -/
def setup_env_fill (C : Collab) (fuel : Nat) (a : exec_action)
    (filled : Except Int (List String)) : Result (Int × exec_action) :=
  match filled with
  | .error r => .ret (r, a)
  | .ok entries =>
    -- line 130: `calloc(count + 1, sizeof(struct env_var *))`, every slot NULL
    let a0 := { a with envp := List.replicate (entries.length + 1) none }
    match setup_env_loop C fuel entries 0 0 a0 with
    | .ret (ret, a1) => .ret (ret, { a1 with envp := a1.envp.set entries.length none })
    | .fault => .fault
    | .timeout => .timeout

/-- The function `setup_env` of lines 99-163: return code and the action as
left behind. -/
def setup_env (C : Collab) (fuel : Nat) (a : exec_action) (env : Option config_setting_t) :
    Result (Int × exec_action) :=
  match env with
  | none => .ret (0, a)
  | some (.string s) => setup_env_fill C fuel a (config_setting_fill_string_vector (.string s))
  | some (.aggregate elems) =>
    setup_env_fill C fuel a (config_setting_fill_string_vector (.aggregate elems))
  | some _ => .ret (-EINVAL, a)

/-! ## `setup_argv` and `setup` -/

/-- The loop of lines 78-82: compile every raw argument, stopping at the first
failure with its return code. -/
def tokenize_args (C : Collab) : List String → Except Int (List subst_vec)
  | [] => .ok []
  | s :: rest =>
    let r := C.subst_tokenize s
    if r.1 != 0 then .error r.1
    else
      match tokenize_args C rest with
      | .ok vec => .ok (r.2 :: vec)
      | .error e => .error e

/-- Modelled from the spec: `config_setting_require_string` of `config.c`,
which is not in this file: the text of a string setting, NULL (`none`) for a
setting of another type. -/
def config_setting_require_string : config_setting_t → Option String
  | .string s => some s
  | _ => none

/-- Modelled from the spec: `config_setting_require_int` of `config.c`, which
is not in this file: 0 for an int setting, an error code for a setting that
fails the type check. -/
def config_setting_require_int : config_setting_t → Int
  | .int _ => 0
  | _ => -EINVAL

/-- The libconfig call `config_setting_get_int`: the value of an int setting,
0 for a setting of another type. -/
def config_setting_get_int : config_setting_t → Int
  | .int n => n
  | _ => 0

/-- The function `setup_argv` of lines 48-97: return code and the compiled
argument vector (`*vecp`, `*countp`). -/
def setup_argv (C : Collab) (command : config_setting_t) : Int × List subst_vec :=
  match config_setting_require_string command with
  | none => (-EINVAL, [])
  | some args =>
    match C.g_shell_parse_argv args with
    | none => (-EINVAL, [])
    | some argv =>
      match tokenize_args C argv with
      | .ok vec => (0, vec)
      | .error r => (r, [])

/-- Lines 199-212: `uid` is a string setting, the user is looked up by name;
`none` is `goto free`. -/
def setup_uid_name (C : Collab) (action : exec_action) (user : String) : Option exec_action :=
  let r := C.util_get_user user
  if r.1 == -ENOENT then none
  else if r.1 != 0 then none
  else some { action with uid := r.2.1, gid := r.2.2 }

/-- Lines 213-235: `uid` is not a string setting; `none` is `goto free`. -/
def setup_uid_int (C : Collab) (action : exec_action) (uid : config_setting_t)
    (gid : Option config_setting_t) : Option exec_action :=
  if config_setting_require_int uid == 0 then
    let action1 := { action with uid := to_id (config_setting_get_int uid) }
    if gid.isNone then
      let r := C.util_get_user_by_uid action1.uid
      if r.1 == -ENOENT then none
      else if r.1 != 0 then none
      else some { action1 with gid := r.2 }
    else some action1
  else none

/-- The block `if (uid) { ... }` of lines 198-236; `none` is `goto free`. -/
def setup_uid (C : Collab) (action : exec_action) (uid gid : Option config_setting_t) :
    Option exec_action :=
  match uid with
  | none => some action
  | some (.string user) => setup_uid_name C action user
  | some u => setup_uid_int C action u gid

/-- Lines 239-255: `gid` is a string setting, the group is looked up by name;
`none` is `goto free`. -/
def setup_gid_name (C : Collab) (action : exec_action) (grname : String) :
    Option exec_action :=
  let r := C.util_get_group grname
  if r.1 == -ENOENT then none
  else if r.1 != 0 then none
  else some { action with gid := r.2 }

/-- Lines 256-259: `gid` is not a string setting; `none` is `goto free`. -/
def setup_gid_int (action : exec_action) (gid : config_setting_t) : Option exec_action :=
  if config_setting_require_int gid == 0 then
    some { action with gid := to_id (config_setting_get_int gid) }
  else none

/-- The block `if (gid) { ... }` of lines 238-260; `none` is `goto free`. -/
def setup_gid (C : Collab) (action : exec_action) (gid : Option config_setting_t) :
    Option exec_action :=
  match gid with
  | none => some action
  | some (.string grname) => setup_gid_name C action grname
  | some g => setup_gid_int action g

/-- The function `setup` of lines 165-267: `none` is the NULL return. -/
def setup (C : Collab) (fuel : Nat) (setting : config_group) : Result (Option exec_action) :=
  let action := zalloc_action
  let command := config_setting_get_member setting "command"
  let env := config_setting_get_member setting "env"
  let uid := config_setting_get_member setting "uid"
  let gid := config_setting_get_member setting "gid"
  match command with
  | none => .ret none
  | some command =>
    let r := setup_argv C command
    if r.1 != 0 then .ret none
    else
      match setup_env C fuel { action with argv := r.2 } env with
      | .fault => .fault
      | .timeout => .timeout
      | .ret (ret, action1) =>
        if ret != 0 then .ret none
        else
          match setup_uid C action1 uid gid with
          | none => .ret none
          | some action2 =>
            match setup_gid C action2 gid with
            | none => .ret none
            | some action3 => .ret (some action3)

/-! ## Run time: `export_uevent_properties`, `export_properties`, `execute` -/

/-- The flags of `global_state` read by this file. -/
structure global_state_t where
  dry_run : Bool
  debug : Bool
deriving DecidableEq, Repr

/-- A device event (`struct udev_device`): its property list, in order. -/
structure udev_device where
  properties : List (String × String)
deriving DecidableEq, Repr

/-- A call with an effect outside the function.  The text of a log line is
abbreviated. -/
inductive Call where
  | fork
  | setenv (name value : String)
  | util_set_cred (gid uid : Nat)
  | execvp (file : Option String) (args : List String)
  | _exit (status : Int)
  | util_wait_helper (pid : Int)
  | log (text : String)
deriving DecidableEq, Repr

/-- Collaborators and process state at run time. -/
structure World where
  global_state : global_state_t
  /-- Value `fork()` returns in the process followed: 0 in the child, the
  child's pid in the parent, negative on failure. -/
  fork : Int
  /-- Value of `errno` after a failed `fork()`. -/
  errno : Int
  /-- The renderer `uevent_subst` of `subst.c`: `none` is NULL. -/
  uevent_subst : subst_vec → udev_device → Option String
  /-- The accessor `uevent_get_property` of `uevent.c`: `none` is NULL. -/
  uevent_get_property : String → udev_device → Option String
  /-- Return code of libc `setenv(name, value, 1)`. -/
  setenv : String → String → Int
  /-- Return code of `util_set_cred(gid, uid)` of `util.c`. -/
  util_set_cred : Nat → Nat → Int
  /-- Return value of `execvp`; `none` when it does not return. -/
  execvp : Option String → List String → Option Int
  /-- Return value of `util_wait_helper(pid)` of `util.c`. -/
  util_wait_helper : Int → Int

/-- How a call of `execute` ends in the process followed. -/
inductive Outcome where
  | returned (ret : Int)
  | exited (status : Int)
  | replaced
  | fault
deriving DecidableEq, Repr

/-- A run: the calls made and how it ended. -/
structure Run where
  trace : List Call
  outcome : Outcome
deriving DecidableEq, Repr

/-- The loop of lines 280-292 over the remaining property nodes; `ret` is the
current return code. -/
def export_uevent_loop (W : World) : List (String × String) → Int → List Call × Int
  | [], ret => ([], ret)
  | (name, value) :: rest, ret =>
    let step : List Call × Int :=
      if !W.global_state.dry_run then ([Call.setenv name value], W.setenv name value)
      else if W.global_state.debug then
        ([Call.log ("Would set env " ++ name ++ "=" ++ value)], ret)
      else ([], ret)
    if step.2 != 0 then (step.1, step.2)
    else
      let r := export_uevent_loop W rest step.2
      (step.1 ++ r.1, r.2)

/-- The function `export_uevent_properties` of lines 269-294. -/
def export_uevent_properties (W : World) (uevent : udev_device) : List Call × Int :=
  export_uevent_loop W uevent.properties 0

/-- Lines 313-318: the value of one configured entry, rendered from its
template or, for a pass-through entry, read from the event; `none` is NULL. -/
def env_value (W : World) (ev : env_var) (uevent : udev_device) : Option String :=
  match ev.value with
  | some v => W.uevent_subst v uevent
  | none => W.uevent_get_property ev.name uevent

/-- The loop of lines 308-334: `n` iterations are left, `i` is the index.
The return code is `none` when `action->envp[i]` cannot be read. -/
def export_env_loop (W : World) (action : exec_action) (uevent : udev_device) :
    Nat → Nat → Int → List Call × Option Int
  | 0, _, ret => ([], some ret)
  | n + 1, i, ret =>
    match action.envp[i]? with
    | some (some ev) =>
      match env_value W ev uevent with
      | none => export_env_loop W action uevent n (i + 1) ret
      | some v =>
        let step : List Call × Int :=
          if !W.global_state.dry_run then ([Call.setenv ev.name v], W.setenv ev.name v)
          else if W.global_state.debug then
            ([Call.log ("Would set env " ++ ev.name ++ "=" ++ v)], ret)
          else ([], ret)
        if step.2 != 0 then
          (step.1 ++ [Call.log ("failed to set environment " ++ ev.name ++ "=" ++ v)],
            some step.2)
        else
          let r := export_env_loop W action uevent n (i + 1) step.2
          (step.1 ++ r.1, r.2)
    | _ => ([], none)

/-- The function `export_properties` of lines 296-337.  The value returned by
`export_uevent_properties` is not used (line 306). -/
def export_properties (W : World) (action : exec_action) (uevent : udev_device) :
    List Call × Option Int :=
  if W.global_state.dry_run then ([], some 0)
  else
    let u := export_uevent_properties W uevent
    let r := export_env_loop W action uevent action.envc 0 0
    (u.1 ++ r.1, r.2)

/-- The loop of lines 355-361: render every argument, `none` at the first
template that does not render. -/
def render_args (W : World) (uevent : udev_device) : List subst_vec → Option (List String)
  | [] => some []
  | t :: rest =>
    match W.uevent_subst t uevent with
    | none => none
    | some s =>
      match render_args W uevent rest with
      | none => none
      | some ss => some (s :: ss)

/-- Lines 372-391: the report, the dry-run return and `execvp`. -/
def exec_tail (W : World) (args : List String) : Run :=
  let cmdline := " ".intercalate args
  let report : List Call :=
    if W.global_state.debug || W.global_state.dry_run then
      if W.global_state.dry_run then [Call.log ("Would start child for " ++ cmdline)]
      else [Call.log ("Starting child: " ++ cmdline)]
    else []
  if (W.global_state.debug || W.global_state.dry_run) && W.global_state.dry_run then
    ⟨report, .returned 0⟩
  else
    match W.execvp args.head? args with
    | none => ⟨report ++ [Call.execvp args.head? args], .replaced⟩
    | some ret =>
      if ret != 0 then
        ⟨report ++ [Call.execvp args.head? args, Call.log "failed to execute", Call._exit 1],
          .exited 1⟩
      else ⟨report ++ [Call.execvp args.head? args], .returned ret⟩

/-- Lines 352-391: the branch `pid == 0`. -/
def child (W : World) (action : exec_action) (uevent : udev_device) : Run :=
  match render_args W uevent action.argv with
  | none => ⟨[Call._exit 1], .exited 1⟩
  | some args =>
    let e := export_properties W action uevent
    match e.2 with
    | none => ⟨e.1, .fault⟩
    | some ret =>
      if ret != 0 then ⟨e.1 ++ [Call._exit 1], .exited 1⟩
      else
        let c := W.util_set_cred action.gid action.uid
        if c != 0 then
          ⟨e.1 ++ [Call.util_set_cred action.gid action.uid, Call._exit 1], .exited 1⟩
        else
          let t := exec_tail W args
          ⟨e.1 ++ Call.util_set_cred action.gid action.uid :: t.trace, t.outcome⟩

/-- The function `execute` of lines 339-402, in the process followed. -/
def execute (W : World) (action : exec_action) (uevent : udev_device) : Run :=
  let forked : List Call × Int :=
    if !W.global_state.dry_run then ([Call.fork], W.fork) else ([], 0)
  if forked.2 == 0 then
    let r := child W action uevent
    ⟨forked.1 ++ r.trace, r.outcome⟩
  else if forked.2 > 0 then
    ⟨forked.1 ++ [Call.util_wait_helper forked.2], .returned (W.util_wait_helper forked.2)⟩
  else
    ⟨forked.1 ++ [Call.log "fork failed"], .returned (-W.errno)⟩

/-! ## Reference definitions, following the specification's words -/

/-- A `uid` or `gid` setting of an admitted kind: a name or an integer. -/
def is_name_or_int : config_setting_t → Bool
  | .string _ => true
  | .int _ => true
  | _ => false

/-- Credential Resolver, steps 1-2, uid: the uid of the named user, or the
integer given. -/
def spec_uid (C : Collab) (uid : config_setting_t) : Nat :=
  match uid with
  | .string user => (C.util_get_user user).2.1
  | .int n => to_id n
  | _ => 0

/-- Credential Resolver, steps 1-3, gid: the configured gid (by name or as the
integer given) when there is one, else the primary gid of the user. -/
def spec_gid (C : Collab) (uid : config_setting_t) (gid : Option config_setting_t) : Nat :=
  match gid with
  | some (.string grname) => (C.util_get_group grname).2
  | some (.int n) => to_id n
  | _ =>
    match uid with
    | .string user => (C.util_get_user user).2.2
    | .int n => (C.util_get_user_by_uid (to_id n)).2
    | _ => 0

/-- Every user and group lookup the configuration needs succeeds. -/
def lookups_succeed (C : Collab) (uid : config_setting_t) (gid : Option config_setting_t) :
    Prop :=
  (∀ user, uid = .string user → (C.util_get_user user).1 = 0) ∧
  (∀ n, uid = .int n → gid = none → (C.util_get_user_by_uid (to_id n)).1 = 0) ∧
  (∀ grname, gid = some (.string grname) → (C.util_get_group grname).1 = 0)

/-! ## Concrete collaborators used in the examples -/

/-- Load-time collaborators of the examples: the command is one word, every
template compiles, every lookup succeeds (user 1000 has primary group 100). -/
def demo_collab : Collab :=
  { g_shell_parse_argv := fun s => some [s]
    subst_tokenize := fun s => (0, ⟨s⟩)
    util_get_user := fun _ => (0, 1000, 100)
    util_get_user_by_uid := fun _ => (0, 100)
    util_get_group := fun _ => (0, 50) }

/-- Run-time collaborators of the examples: a template renders to its text,
except `${MISSING}`, which does not render; every call succeeds. -/
def demo_world (dry_run : Bool) : World :=
  { global_state := { dry_run := dry_run, debug := false }
    fork := 0
    errno := 0
    uevent_subst := fun t _ => if t.text = "${MISSING}" then none else some t.text
    uevent_get_property := fun name u => u.properties.lookup name
    setenv := fun _ _ => 0
    util_set_cred := fun _ _ => 0
    execvp := fun _ _ => none
    util_wait_helper := fun _ => 0 }

/-- The template `setup` builds for the command `true` with no other key. -/
def demo_action : exec_action :=
  { argv := [⟨"true"⟩], envc := 0, envp := [], uid := 0, gid := 0 }

/-- An event with one property. -/
def demo_event : udev_device := { properties := [("DEVNAME", "sda")] }

/-! ## Further definitions used in the statements -/

/-- Calls that environment export can make: `setenv` and log lines. -/
def is_env_call : Call → Bool
  | .setenv _ _ => true
  | .log _ => true
  | _ => false

/-- Run-time collaborators in which the credential switch fails. -/
def cred_fail_world (dry_run : Bool) : World :=
  { demo_world dry_run with util_set_cred := fun _ _ => -1 }

/-- A template whose only argument does not render on `demo_event`. -/
def unrendered_action : exec_action :=
  { argv := [⟨"${MISSING}"⟩], envc := 0, envp := [], uid := 0, gid := 0 }

/-- Run-time collaborators in which every `setenv` fails. -/
def setenv_fail_world : World :=
  { demo_world false with setenv := fun _ _ => -1 }

/-- The template `setup` builds for the command `true` and an empty `env` list. -/
def empty_env_action : exec_action :=
  { argv := [⟨"true"⟩], envc := 0, envp := [none], uid := 0, gid := 0 }

/-! ## Lemmas on `setup` -/

theorem scan_name_stuck (s : List Char) (off : Nat) (c : Char) (hc : s[off]? = some c)
    (heq : c ≠ '=') (hok : isalnum c = true ∨ c = '_') (fuel : Nat) (ret : Int) :
    scan_name s fuel off ret = none := by
  induction fuel with
  | zero => rfl
  | succ n ih =>
    unfold scan_name
    rw [hc]
    rcases hok with h | h
    · simp [heq, h, ih]
    · simp [heq, h, ih]

/-- The loop over the entries does not get past an entry on which the scan is
stuck. -/
theorem setup_env_loop_stuck (C : Collab) (fuel : Nat) (e : String) (es : List String)
    (i : Nat) (ret : Int) (a : exec_action) (c : Char) (hc : e.data[0]? = some c)
    (heq : c ≠ '=') (hok : isalnum c = true ∨ c = '_') :
    setup_env_loop C fuel (e :: es) i ret a = .timeout := by
  unfold setup_env_loop
  rw [scan_name_stuck e.data 0 c hc heq hok]

/-- Line 151 writes `envp` only. -/
theorem store_env_name_fields (a a1 : exec_action) (i : Nat) (name : String)
    (h : store_env_name a i name = some a1) :
    a1.argv = a.argv ∧ a1.envc = a.envc ∧ a1.uid = a.uid ∧ a1.gid = a.gid := by
  unfold store_env_name at h
  split at h
  · cases h; exact ⟨rfl, rfl, rfl, rfl⟩
  · cases h

/-- Line 155 writes `envp` only. -/
theorem store_env_value_fields (a : exec_action) (i : Nat) (v : subst_vec) :
    (store_env_value a i v).argv = a.argv ∧ (store_env_value a i v).envc = a.envc ∧
      (store_env_value a i v).uid = a.uid ∧ (store_env_value a i v).gid = a.gid := by
  unfold store_env_value
  split <;> exact ⟨rfl, rfl, rfl, rfl⟩

/-- The loop of `setup_env` writes `envp` only. -/
theorem setup_env_loop_fields (C : Collab) (fuel : Nat) (es : List String) :
    ∀ (i : Nat) (ret : Int) (a : exec_action) (r : Int) (a1 : exec_action),
      setup_env_loop C fuel es i ret a = .ret (r, a1) →
      a1.argv = a.argv ∧ a1.envc = a.envc ∧ a1.uid = a.uid ∧ a1.gid = a.gid := by
  induction es with
  | nil =>
    intro i ret a r a1 h
    simp [setup_env_loop] at h
    rw [← h.2]
    exact ⟨rfl, rfl, rfl, rfl⟩
  | cons e es ih =>
    intro i ret a r a1 h
    unfold setup_env_loop at h
    split at h
    · cases h
    · rename_i off ret1 _
      split at h
      · cases h
      · rename_i a2 hst
        have h2 := store_env_name_fields a a2 i _ hst
        split at h
        · have h3 := ih _ _ _ _ _ h
          exact ⟨h3.1.trans h2.1, h3.2.1.trans h2.2.1, h3.2.2.1.trans h2.2.2.1,
            h3.2.2.2.trans h2.2.2.2⟩
        · simp only at h
          split at h
          · cases h
            exact h2
          · have h3 := ih _ _ _ _ _ h
            have h4 := store_env_value_fields a2 i
              (C.subst_tokenize (String.mk (e.data.drop (off + 1)))).2
            exact ⟨h3.1.trans (h4.1.trans h2.1), h3.2.1.trans (h4.2.1.trans h2.2.1),
              h3.2.2.1.trans (h4.2.2.1.trans h2.2.2.1),
              h3.2.2.2.trans (h4.2.2.2.trans h2.2.2.2)⟩

/-- Lines 124-162 write `envp` only. -/
theorem setup_env_fill_fields (C : Collab) (fuel : Nat) (a : exec_action)
    (filled : Except Int (List String)) (r : Int) (a1 : exec_action)
    (h : setup_env_fill C fuel a filled = .ret (r, a1)) :
    a1.argv = a.argv ∧ a1.envc = a.envc ∧ a1.uid = a.uid ∧ a1.gid = a.gid := by
  unfold setup_env_fill at h
  split at h
  · cases h; exact ⟨rfl, rfl, rfl, rfl⟩
  · simp only at h
    split at h
    · rename_i ret a2 hl
      have h2 := setup_env_loop_fields C fuel _ _ _ _ _ _ hl
      cases h
      exact h2
    · cases h
    · cases h

/-- The function `setup_env` writes `envp` only; `envc` keeps its value. -/
theorem setup_env_fields (C : Collab) (fuel : Nat) (a : exec_action)
    (env : Option config_setting_t) (r : Int) (a1 : exec_action)
    (h : setup_env C fuel a env = .ret (r, a1)) :
    a1.argv = a.argv ∧ a1.envc = a.envc ∧ a1.uid = a.uid ∧ a1.gid = a.gid := by
  unfold setup_env at h
  split at h
  · cases h; exact ⟨rfl, rfl, rfl, rfl⟩
  · exact setup_env_fill_fields C fuel a _ r a1 h
  · exact setup_env_fill_fields C fuel a _ r a1 h
  · cases h; exact ⟨rfl, rfl, rfl, rfl⟩

/-- The `uid` block writes `uid` and `gid` only. -/
theorem setup_uid_fields (C : Collab) (a a1 : exec_action) (uid gid : Option config_setting_t)
    (h : setup_uid C a uid gid = some a1) : a1.argv = a.argv ∧ a1.envc = a.envc := by
  unfold setup_uid at h
  split at h
  · cases h; exact ⟨rfl, rfl⟩
  · simp only [setup_uid_name] at h
    split_ifs at h
    cases h; exact ⟨rfl, rfl⟩
  · simp only [setup_uid_int] at h
    split_ifs at h <;> cases h <;> exact ⟨rfl, rfl⟩

/-- The `gid` block writes `gid` only. -/
theorem setup_gid_fields (C : Collab) (a a1 : exec_action) (gid : Option config_setting_t)
    (h : setup_gid C a gid = some a1) :
    a1.argv = a.argv ∧ a1.envc = a.envc ∧ a1.uid = a.uid := by
  unfold setup_gid at h
  split at h
  · cases h; exact ⟨rfl, rfl, rfl⟩
  · simp only [setup_gid_name] at h
    split_ifs at h
    cases h; exact ⟨rfl, rfl, rfl⟩
  · simp only [setup_gid_int] at h
    split_ifs at h
    cases h; exact ⟨rfl, rfl, rfl⟩

/-! ## Lemmas on `execute` -/

theorem export_uevent_loop_calls (W : World) (ps : List (String × String)) :
    ∀ (ret : Int) (c : Call), c ∈ (export_uevent_loop W ps ret).1 → is_env_call c = true := by
  induction ps with
  | nil => intro ret c h; simp [export_uevent_loop] at h
  | cons p ps ih =>
    intro ret c h
    obtain ⟨name, value⟩ := p
    simp only [export_uevent_loop] at h
    split_ifs at h <;>
      simp only [List.mem_append, List.mem_singleton, List.nil_append, List.not_mem_nil] at h
    all_goals first
      | (subst h; rfl)
      | (rcases h with h | h
         · subst h; rfl
         · exact ih _ c h)
      | exact ih _ c h

/-- Every `setenv` call of the property export sets a property of the event. -/
theorem export_uevent_loop_setenv (W : World) (ps : List (String × String)) :
    ∀ (ret : Int) (n v : String), Call.setenv n v ∈ (export_uevent_loop W ps ret).1 →
      (n, v) ∈ ps := by
  induction ps with
  | nil => intro ret n v h; simp [export_uevent_loop] at h
  | cons p ps ih =>
    intro ret n v h
    obtain ⟨name, value⟩ := p
    simp only [export_uevent_loop] at h
    split_ifs at h <;>
      simp only [List.mem_append, List.mem_singleton, List.nil_append, List.not_mem_nil,
        Call.setenv.injEq] at h
    all_goals first
      | (rw [h.1, h.2]; exact List.mem_cons_self _ _)
      | (rcases h with h | h
         · rw [h.1, h.2]; exact List.mem_cons_self _ _
         · exact List.mem_cons_of_mem _ (ih _ n v h))
      | (rcases h with h | h
         · exact absurd h (by simp)
         · exact List.mem_cons_of_mem _ (ih _ n v h))
      | exact List.mem_cons_of_mem _ (ih _ n v h)
      | exact absurd h (by simp)

/-- The loop over the configured entries calls nothing but `setenv` and the log. -/
theorem export_env_loop_calls (W : World) (action : exec_action) (uevent : udev_device)
    (n : Nat) : ∀ (i : Nat) (ret : Int) (c : Call),
      c ∈ (export_env_loop W action uevent n i ret).1 → is_env_call c = true := by
  induction n with
  | zero => intro i ret c h; simp [export_env_loop] at h
  | succ n ih =>
    intro i ret c h
    unfold export_env_loop at h
    rcases hs : action.envp[i]? with _ | (_ | ev)
    · simp [hs] at h
    · simp [hs] at h
    · simp only [hs] at h
      rcases hv : env_value W ev uevent with _ | v
      · simp only [hv] at h
        exact ih _ _ c h
      · simp only [hv] at h
        split_ifs at h <;>
          simp only [List.mem_append, List.mem_singleton, List.nil_append, List.not_mem_nil,
            List.mem_cons, or_false] at h
        all_goals first
          | (subst h; rfl)
          | exact ih _ _ c h
          | (rcases h with h | h <;> first
              | (subst h; rfl)
              | exact ih _ _ c h)

/-- The function `export_properties` calls nothing but `setenv` and the log. -/
theorem export_properties_calls (W : World) (action : exec_action) (uevent : udev_device)
    (c : Call) (h : c ∈ (export_properties W action uevent).1) : is_env_call c = true := by
  unfold export_properties at h
  split_ifs at h
  · simp at h
  · simp only [List.mem_append] at h
    rcases h with h | h
    · exact export_uevent_loop_calls W _ _ c h
    · exact export_env_loop_calls W action uevent _ _ _ c h

/-- In dry-run mode `export_properties` returns 0 at once (lines 303-304). -/
theorem export_properties_dry_run (W : World) (action : exec_action) (uevent : udev_device)
    (hdry : W.global_state.dry_run = true) :
    export_properties W action uevent = ([], some 0) := by
  simp [export_properties, hdry]

/-- In dry-run mode lines 372-383 log the command line and return 0. -/
theorem exec_tail_dry_run (W : World) (args : List String)
    (hdry : W.global_state.dry_run = true) :
    exec_tail W args = ⟨[Call.log ("Would start child for " ++ " ".intercalate args)],
      .returned 0⟩ := by
  simp [exec_tail, hdry]

/-- In dry-run mode `execute` has exactly three shapes. -/
theorem execute_dry_run (W : World) (action : exec_action) (uevent : udev_device)
    (hdry : W.global_state.dry_run = true) :
    execute W action uevent =
      match render_args W uevent action.argv with
      | none => ⟨[Call._exit 1], .exited 1⟩
      | some args =>
        if W.util_set_cred action.gid action.uid != 0 then
          ⟨[Call.util_set_cred action.gid action.uid, Call._exit 1], .exited 1⟩
        else
          ⟨[Call.util_set_cred action.gid action.uid,
            Call.log ("Would start child for " ++ " ".intercalate args)], .returned 0⟩ := by
  simp only [execute, child, hdry, export_properties_dry_run W action uevent hdry,
    exec_tail_dry_run W _ hdry]
  cases render_args W uevent action.argv with
  | none => simp
  | some args =>
    by_cases hc : W.util_set_cred action.gid action.uid = 0 <;> simp [hc]

/-- A call other than `setenv` and the log is not made by `export_properties`. -/
theorem export_properties_not_mem (W : World) (action : exec_action) (uevent : udev_device)
    (c : Call) (hc : is_env_call c = false) : c ∉ (export_properties W action uevent).1 := by
  intro h
  rw [export_properties_calls W action uevent c h] at hc
  cases hc

/-- The trace of `execute` when the child path gets as far as the credential
switch: the fork (outside dry-run), the export calls, then `util_set_cred`. -/
theorem execute_trace_of_set_cred (W : World) (action : exec_action) (uevent : udev_device)
    (g i : Nat) (hcall : Call.util_set_cred g i ∈ (execute W action uevent).trace) :
    ∃ args, render_args W uevent action.argv = some args ∧
      (export_properties W action uevent).2 = some 0 ∧
      g = action.gid ∧ i = action.uid ∧
      execute W action uevent =
        if W.util_set_cred action.gid action.uid != 0 then
          ⟨(if !W.global_state.dry_run then [Call.fork] else []) ++
            ((export_properties W action uevent).1 ++
              [Call.util_set_cred action.gid action.uid, Call._exit 1]), .exited 1⟩
        else
          ⟨(if !W.global_state.dry_run then [Call.fork] else []) ++
            ((export_properties W action uevent).1 ++
              Call.util_set_cred action.gid action.uid :: (exec_tail W args).trace),
            (exec_tail W args).outcome⟩ := by
  have hne : ∀ c, is_env_call c = false → c ∉ (export_properties W action uevent).1 :=
    export_properties_not_mem W action uevent
  have hx := hne (Call.util_set_cred g i) rfl
  unfold execute child at hcall ⊢
  rcases hr : render_args W uevent action.argv with _ | args
  · simp only [hr] at hcall
    split_ifs at hcall <;> simp at hcall
  · refine ⟨args, rfl, ?_⟩
    simp only [hr] at hcall ⊢
    rcases he : (export_properties W action uevent).2 with _ | ret
    · simp only [he] at hcall
      split_ifs at hcall <;> simp [hx] at hcall
    · simp only [he] at hcall ⊢
      by_cases hret : ret = 0
      · subst hret
        have htail : Call.util_set_cred g i ∉ (exec_tail W args).trace := by
          unfold exec_tail
          simp only
          split_ifs <;> try simp
          all_goals (split <;> try split_ifs) <;> simp
        by_cases hc : W.util_set_cred action.gid action.uid = 0
        · simp only [hc, bne_self_eq_false, Bool.false_eq_true, if_false] at hcall ⊢
          split_ifs at hcall ⊢ <;> simp [hx, htail] at hcall ⊢
          all_goals exact hcall
        · simp only [bne_iff_ne, ne_eq, hc, not_false_eq_true, if_true, bne_self_eq_false,
            Bool.false_eq_true, if_false] at hcall ⊢
          split_ifs at hcall ⊢ <;> simp [hx] at hcall ⊢
          all_goals exact hcall
      · have hret2 : (ret != 0) = true := by simpa using hret
        simp only [hret2, if_true] at hcall
        split_ifs at hcall <;> simp [hx] at hcall

/-- The trace of `execute` when it contains a call of `execvp`: the
credential switch was called before it and returned 0. -/
theorem execute_trace_of_execvp (W : World) (action : exec_action) (uevent : udev_device)
    (f : Option String) (fargs : List String)
    (hcall : Call.execvp f fargs ∈ (execute W action uevent).trace) :
    ∃ args, render_args W uevent action.argv = some args ∧
      W.util_set_cred action.gid action.uid = 0 ∧
      Call.execvp f fargs ∈ (exec_tail W args).trace ∧
      (execute W action uevent).trace =
        ((if !W.global_state.dry_run then [Call.fork] else []) ++
          (export_properties W action uevent).1) ++
            Call.util_set_cred action.gid action.uid :: (exec_tail W args).trace := by
  have hx := export_properties_not_mem W action uevent (Call.execvp f fargs) rfl
  unfold execute child at hcall ⊢
  rcases hr : render_args W uevent action.argv with _ | args
  · simp only [hr] at hcall
    split_ifs at hcall <;> simp at hcall
  · refine ⟨args, rfl, ?_⟩
    simp only [hr] at hcall ⊢
    rcases he : (export_properties W action uevent).2 with _ | ret
    · simp only [he] at hcall
      split_ifs at hcall <;> simp [hx] at hcall
    · simp only [he] at hcall ⊢
      by_cases hret : ret = 0
      · subst hret
        by_cases hc : W.util_set_cred action.gid action.uid = 0
        · simp only [hc, bne_self_eq_false, Bool.false_eq_true, if_false] at hcall ⊢
          split_ifs at hcall ⊢ <;> simp [hx] at hcall ⊢
          all_goals exact hcall
        · simp only [bne_iff_ne, ne_eq, hc, not_false_eq_true, if_true, bne_self_eq_false,
            Bool.false_eq_true, if_false] at hcall ⊢
          split_ifs at hcall ⊢ <;> simp [hx] at hcall ⊢
      · have hret2 : (ret != 0) = true := by simpa using hret
        simp only [hret2, if_true] at hcall
        split_ifs at hcall <;> simp [hx] at hcall

/-- On a string `env` whose first character is valid and not `=`, `setup_env`
does not return, whatever the fuel. -/
theorem setup_env_string_stuck (C : Collab) (fuel : Nat) (a : exec_action) (e : String)
    (c : Char) (hc : e.data[0]? = some c) (heq : c ≠ '=')
    (hok : isalnum c = true ∨ c = '_') :
    setup_env C fuel a (some (.string e)) = .timeout := by
  simp only [setup_env, setup_env_fill, config_setting_fill_string_vector]
  rw [setup_env_loop_stuck C fuel e [] 0 0 _ c hc heq hok]

/-- When `setup_env` does not return, neither does `setup`. -/
theorem setup_timeout_of_env (C : Collab) (fuel : Nat) (setting : config_group)
    (command env : config_setting_t)
    (hcmd : config_setting_get_member setting "command" = some command)
    (hargv : (setup_argv C command).1 = 0)
    (henv : config_setting_get_member setting "env" = some env)
    (hstuck : ∀ a, setup_env C fuel a (some env) = .timeout) :
    setup C fuel setting = .timeout := by
  simp [setup, hcmd, hargv, henv, hstuck]

/-- Every `setenv` call of `execute` is made by `export_properties`. -/
theorem execute_trace_setenv (W : World) (action : exec_action) (uevent : udev_device)
    (n v : String) (hcall : Call.setenv n v ∈ (execute W action uevent).trace) :
    Call.setenv n v ∈ (export_properties W action uevent).1 := by
  have htail : ∀ args, Call.setenv n v ∉ (exec_tail W args).trace := by
    intro args
    unfold exec_tail
    simp only
    split_ifs <;> try simp
    all_goals (split <;> try split_ifs) <;> simp
  unfold execute child at hcall
  rcases hr : render_args W uevent action.argv with _ | args
  · simp only [hr] at hcall
    split_ifs at hcall <;> simp at hcall
  · simp only [hr] at hcall
    rcases he : (export_properties W action uevent).2 with _ | ret
    · simp only [he] at hcall
      split_ifs at hcall <;> simp at hcall
      all_goals exact hcall
    · simp only [he] at hcall
      split_ifs at hcall <;> simp [htail] at hcall
      all_goals exact hcall

/-- What `setup` leaves in the fields that only `zalloc` and the credential
blocks write. -/
theorem setup_fields (C : Collab) (fuel : Nat) (setting : config_group) (a : exec_action)
    (h : setup C fuel setting = .ret (some a)) :
    a.envc = 0 ∧
      ∃ a1 : exec_action, a1.uid = 0 ∧ a1.gid = 0 ∧
        ∃ a2, setup_uid C a1 (config_setting_get_member setting "uid")
            (config_setting_get_member setting "gid") = some a2 ∧
          setup_gid C a2 (config_setting_get_member setting "gid") = some a := by
  unfold setup at h
  simp only at h
  split at h
  · cases h
  · split_ifs at h
    · cases h
    · split at h
      · cases h
      · cases h
      · rename_i ret a1 henv
        have h1 := setup_env_fields C fuel _ _ _ _ henv
        split_ifs at h
        · cases h
        · split at h
          · cases h
          · rename_i a2 huid
            split at h
            · cases h
            · rename_i a3 hgid
              simp only [Result.ret.injEq, Option.some.injEq] at h
              subst h
              have h2 := setup_uid_fields C _ _ _ _ huid
              have h3 := setup_gid_fields C _ _ _ hgid
              refine ⟨?_, a1, h1.2.2.1, h1.2.2.2, a2, huid, hgid⟩
              rw [h3.2.1, h2.2, h1.2.1]
              rfl

/-- With at least one entry to process, `setup_env` does not return: the scan
of the first entry either never leaves its loop, or line 151 writes through
the NULL slot `action->envp[0]`. -/
theorem setup_env_fill_nonempty_not_ret (C : Collab) (fuel : Nat) (a : exec_action)
    (e : String) (es : List String) (r : Int × exec_action) :
    setup_env_fill C fuel a (.ok (e :: es)) ≠ .ret r := by
  intro h
  simp only [setup_env_fill, setup_env_loop] at h
  rcases hs : scan_name e.data fuel 0 0 with _ | ⟨off, ret1⟩
  · simp [hs] at h
  · simp [hs, store_env_name, List.replicate_succ] at h

/-! ## The claims -/

/-- C3: when the credential switch `util_set_cred` is called in `execute` and
returns a failure, no `execvp` call is made in that run and the run ends in
`_exit` with a non-zero status. -/
theorem execute_cred_failure_exits_without_exec (W : World) (action : exec_action)
    (uevent : udev_device) (g i : Nat)
    (hcall : Call.util_set_cred g i ∈ (execute W action uevent).trace)
    (hfail : W.util_set_cred action.gid action.uid ≠ 0) :
    (∀ f fargs, Call.execvp f fargs ∉ (execute W action uevent).trace) ∧
      ∃ status : Int, status ≠ 0 ∧
        (execute W action uevent).outcome = .exited status ∧
        (execute W action uevent).trace.getLast? = some (Call._exit status) := by
  obtain ⟨args, _, _, _, _, hrun⟩ := execute_trace_of_set_cred W action uevent g i hcall
  have hne : (W.util_set_cred action.gid action.uid != 0) = true := by simpa using hfail
  rw [hne, if_pos rfl] at hrun
  refine ⟨?_, 1, by decide, ?_, ?_⟩
  · intro f fargs hmem
    obtain ⟨_, _, hzero, _, _⟩ := execute_trace_of_execvp W action uevent f fargs hmem
    exact hfail hzero
  · rw [hrun]
  · rw [hrun]
    simp [List.getLast?_append]

/-- Witness of C3: a child run in which `util_set_cred` returns -1. -/
theorem execute_cred_failure_exits_without_exec_witness :
    Call.util_set_cred 0 0 ∈ (execute (cred_fail_world false) demo_action demo_event).trace ∧
      (cred_fail_world false).util_set_cred demo_action.gid demo_action.uid ≠ 0 ∧
      ((∀ f fargs, Call.execvp f fargs ∉
          (execute (cred_fail_world false) demo_action demo_event).trace) ∧
        ∃ status : Int, status ≠ 0 ∧
          (execute (cred_fail_world false) demo_action demo_event).outcome = .exited status ∧
          (execute (cred_fail_world false) demo_action demo_event).trace.getLast? =
            some (Call._exit status)) :=
  ⟨by decide, by decide,
    execute_cred_failure_exits_without_exec (cred_fail_world false) demo_action demo_event 0 0
      (by decide) (by decide)⟩

/-- C6: in dry-run mode `execute` calls neither `fork` nor `setenv` nor
`execvp`, for every template and every event. -/
theorem execute_dry_run_no_fork_setenv_execvp (W : World) (action : exec_action)
    (uevent : udev_device) (hdry : W.global_state.dry_run = true) :
    Call.fork ∉ (execute W action uevent).trace ∧
      (∀ n v, Call.setenv n v ∉ (execute W action uevent).trace) ∧
      (∀ f fargs, Call.execvp f fargs ∉ (execute W action uevent).trace) := by
  rw [execute_dry_run W action uevent hdry]
  cases render_args W uevent action.argv with
  | none => simp
  | some args =>
    simp only
    split_ifs <;> simp

/-- Witness of C6: a dry run on the template of the command `true`. -/
theorem execute_dry_run_no_fork_setenv_execvp_witness :
    (demo_world true).global_state.dry_run = true ∧
      (Call.fork ∉ (execute (demo_world true) demo_action demo_event).trace ∧
        (∀ n v, Call.setenv n v ∉ (execute (demo_world true) demo_action demo_event).trace) ∧
        (∀ f fargs, Call.execvp f fargs ∉
          (execute (demo_world true) demo_action demo_event).trace)) :=
  ⟨rfl, execute_dry_run_no_fork_setenv_execvp (demo_world true) demo_action demo_event rfl⟩

/-- C1 (fails on the code): in dry-run mode, on the template of the command
`true`, `execute` calls `util_set_cred(0, 0)`; the run is that call followed by
the dry-run log line. -/
theorem execute_dry_run_calls_util_set_cred :
    (demo_world true).global_state.dry_run = true ∧
      execute (demo_world true) demo_action demo_event =
        ⟨[Call.util_set_cred 0 0, Call.log "Would start child for true"], .returned 0⟩ := by
  decide

/-- C2 (fails on the code): in dry-run mode `execute` does not return 0 when an
argument does not render, nor when the credential step fails: in both runs the
calling process ends in `_exit(1)`. -/
theorem execute_dry_run_exits_on_failure :
    (demo_world true).global_state.dry_run = true ∧
      execute (demo_world true) unrendered_action demo_event =
        ⟨[Call._exit 1], .exited 1⟩ ∧
      (cred_fail_world true).global_state.dry_run = true ∧
      execute (cred_fail_world true) demo_action demo_event =
        ⟨[Call.util_set_cred 0 0, Call._exit 1], .exited 1⟩ := by
  decide

/-- C9 (fails on the code): outside dry-run, when `setenv` fails on a property
of the event, `export_uevent_properties` returns that failure but
`export_properties` returns 0, and `execute` goes on to `util_set_cred` and
`execvp`. -/
theorem export_properties_drops_uevent_setenv_failure :
    setenv_fail_world.global_state.dry_run = false ∧
      export_uevent_properties setenv_fail_world demo_event =
        ([Call.setenv "DEVNAME" "sda"], -1) ∧
      export_properties setenv_fail_world demo_action demo_event =
        ([Call.setenv "DEVNAME" "sda"], some 0) ∧
      execute setenv_fail_world demo_action demo_event =
        ⟨[Call.fork, Call.setenv "DEVNAME" "sda", Call.util_set_cred 0 0,
          Call.execvp (some "true") ["true"]], .replaced⟩ := by
  decide

/-- C4 (fails on the code): for the entry `A-B=x`, whose name has the invalid
character `-`, `setup_env` and `setup` are still in the scan loop after any
number of iterations, also when further entries follow; for the entry `-B=x`
the scan sets `-EINVAL` and line 151 then writes through the NULL slot
`action->envp[0]`.  Neither returns `-EINVAL`. -/
theorem setup_env_invalid_name_not_rejected (C : Collab) (fuel : Nat) :
    setup_env C fuel zalloc_action (some (.string "A-B=x")) = .timeout ∧
      setup_env C fuel zalloc_action
        (some (.aggregate [.string "A-B=x", .string "OK=1"])) = .timeout ∧
      setup demo_collab fuel [("command", .string "true"), ("env", .string "A-B=x")] =
        .timeout ∧
      setup_env C (fuel + 1) zalloc_action (some (.string "-B=x")) = .fault := by
  refine ⟨?_, ?_, ?_, ?_⟩
  · exact setup_env_string_stuck C fuel _ "A-B=x" 'A' (by decide) (by decide) (by decide)
  · simp only [setup_env, setup_env_fill, config_setting_fill_string_vector, List.foldr]
    rw [setup_env_loop_stuck C fuel "A-B=x" _ 0 0 _ 'A' (by decide) (by decide) (by decide)]
  · exact setup_timeout_of_env demo_collab fuel _ (.string "true") (.string "A-B=x")
      (by decide) (by decide) (by decide)
      (fun a => setup_env_string_stuck demo_collab fuel a "A-B=x" 'A' (by decide) (by decide)
        (by decide))
  · have hscan : scan_name "-B=x".data (fuel + 1) 0 0 = some (0, -EINVAL) := by
      unfold scan_name
      have h0 : "-B=x".data[0]? = some '-' := by decide
      rw [h0]
      have h1 : ¬ ('-' = '=') := by decide
      have h2 : (!isalnum '-' && '-' != '_') = true := by decide
      simp only [h1, h2, if_true, if_false]
    simp only [setup_env, setup_env_fill, config_setting_fill_string_vector, setup_env_loop,
      hscan, store_env_name]
    simp

/-- C5 (fails on the code): on the entries `LOG_LEVEL` and `1BAD=x` the
name-validation scan of `setup_env` has not left its loop after any number of
iterations, and neither has `setup`. -/
theorem scan_name_never_terminates (fuel : Nat) :
    scan_name "LOG_LEVEL".data fuel 0 0 = none ∧
      scan_name "1BAD=x".data fuel 0 0 = none ∧
      setup demo_collab fuel [("command", .string "true"), ("env", .string "LOG_LEVEL")] =
        .timeout ∧
      setup demo_collab fuel [("command", .string "true"), ("env", .string "1BAD=x")] =
        .timeout := by
  refine ⟨?_, ?_, ?_, ?_⟩
  · exact scan_name_stuck _ 0 'L' (by decide) (by decide) (by decide) fuel 0
  · exact scan_name_stuck _ 0 '1' (by decide) (by decide) (by decide) fuel 0
  · exact setup_timeout_of_env demo_collab fuel _ (.string "true") (.string "LOG_LEVEL")
      (by decide) (by decide) (by decide)
      (fun a => setup_env_string_stuck demo_collab fuel a "LOG_LEVEL" 'L' (by decide)
        (by decide) (by decide))
  · exact setup_timeout_of_env demo_collab fuel _ (.string "true") (.string "1BAD=x")
      (by decide) (by decide) (by decide)
      (fun a => setup_env_string_stuck demo_collab fuel a "1BAD=x" '1' (by decide)
        (by decide) (by decide))

/-- C10: on every configuration on which `setup` returns an action, its `envc`
is 0; so the loop of `export_properties` over the configured entries makes no
iteration, `export_properties` makes only the calls of
`export_uevent_properties`, and every `setenv` call of `execute` sets a
property of the event. -/
theorem setup_envc_zero (C : Collab) (fuel : Nat) (setting : config_group) (a : exec_action)
    (h : setup C fuel setting = .ret (some a)) :
    a.envc = 0 ∧
      ∀ (W : World) (uevent : udev_device),
        export_env_loop W a uevent a.envc 0 0 = ([], some 0) ∧
        export_properties W a uevent =
          (if W.global_state.dry_run then [] else (export_uevent_properties W uevent).1,
            some 0) ∧
        ∀ n v, Call.setenv n v ∈ (execute W a uevent).trace →
          (n, v) ∈ uevent.properties := by
  have h0 : a.envc = 0 := (setup_fields C fuel setting a h).1
  refine ⟨h0, ?_⟩
  intro W uevent
  have hloop : export_env_loop W a uevent a.envc 0 0 = ([], some 0) := by
    rw [h0]; rfl
  have hexp : export_properties W a uevent =
      (if W.global_state.dry_run then [] else (export_uevent_properties W uevent).1,
        some 0) := by
    unfold export_properties
    rw [hloop]
    split_ifs <;> simp
  refine ⟨hloop, hexp, ?_⟩
  intro n v hmem
  have h1 := execute_trace_setenv W a uevent n v hmem
  rw [hexp] at h1
  simp only at h1
  split_ifs at h1
  · simp at h1
  · exact export_uevent_loop_setenv W _ _ n v h1

/-- Witness of C10: the command `true` with an empty `env` list. -/
theorem setup_envc_zero_witness :
    setup demo_collab 1 [("command", .string "true"), ("env", .aggregate [])] =
        .ret (some empty_env_action) ∧
      (empty_env_action.envc = 0 ∧
        ∀ (W : World) (uevent : udev_device),
          export_env_loop W empty_env_action uevent empty_env_action.envc 0 0 =
            ([], some 0) ∧
          export_properties W empty_env_action uevent =
            (if W.global_state.dry_run then [] else (export_uevent_properties W uevent).1,
              some 0) ∧
          ∀ n v, Call.setenv n v ∈ (execute W empty_env_action uevent).trace →
            (n, v) ∈ uevent.properties) :=
  ⟨by decide,
    setup_envc_zero demo_collab 1 [("command", .string "true"), ("env", .aggregate [])]
      empty_env_action (by decide)⟩

/-- C8 (fails on the code): with neither `uid` nor `gid` configured `setup`
returns the same template as for `uid = 0; gid = 0`, and `execute` on it calls
`util_set_cred(0, 0)` before `execvp`. -/
theorem setup_no_uid_gid_switches_to_zero :
    config_setting_get_member [("command", .string "true")] "uid" = none ∧
      config_setting_get_member [("command", .string "true")] "gid" = none ∧
      setup demo_collab 1 [("command", .string "true")] = .ret (some demo_action) ∧
      setup demo_collab 1 [("command", .string "true"), ("uid", .int 0), ("gid", .int 0)] =
        .ret (some demo_action) ∧
      execute (demo_world false) demo_action demo_event =
        ⟨[Call.fork, Call.setenv "DEVNAME" "sda", Call.util_set_cred 0 0,
          Call.execvp (some "true") ["true"]], .replaced⟩ := by
  decide

/-- C8 as amended: with neither `uid` nor `gid` configured, the template
`setup` returns has uid 0 and gid 0, the values `zalloc` left, and every run of
`execute` on it that calls `execvp` has called `util_set_cred(0, 0)` before. -/
theorem setup_no_uid_gid_zero_credentials (C : Collab) (fuel : Nat) (setting : config_group)
    (a : exec_action)
    (huid : config_setting_get_member setting "uid" = none)
    (hgid : config_setting_get_member setting "gid" = none)
    (h : setup C fuel setting = .ret (some a)) :
    a.uid = 0 ∧ a.gid = 0 ∧
      ∀ (W : World) (uevent : udev_device) (f : Option String) (fargs : List String),
        Call.execvp f fargs ∈ (execute W a uevent).trace →
        ∃ pre post, (execute W a uevent).trace = pre ++ Call.util_set_cred 0 0 :: post ∧
          Call.execvp f fargs ∈ post ∧ ∀ f1 fargs1, Call.execvp f1 fargs1 ∉ pre := by
  obtain ⟨_, a1, hu1, hg1, a2, h2, h3⟩ := setup_fields C fuel setting a h
  rw [huid, hgid] at h2
  rw [hgid] at h3
  simp only [setup_uid, setup_gid, Option.some.injEq] at h2 h3
  subst h2
  subst h3
  refine ⟨hu1, hg1, ?_⟩
  intro W uevent f fargs hmem
  obtain ⟨args, _, _, hin, htr⟩ := execute_trace_of_execvp W a1 uevent f fargs hmem
  rw [hu1, hg1] at htr
  refine ⟨_, _, htr, hin, ?_⟩
  intro f1 fargs1 hpre
  simp only [List.mem_append] at hpre
  rcases hpre with hpre | hpre
  · split_ifs at hpre <;> simp at hpre
  · exact export_properties_not_mem W a1 uevent (Call.execvp f1 fargs1) rfl hpre

/-- Witness of C8 as amended: the command `true` with no other key. -/
theorem setup_no_uid_gid_zero_credentials_witness :
    config_setting_get_member [("command", .string "true")] "uid" = none ∧
      config_setting_get_member [("command", .string "true")] "gid" = none ∧
      setup demo_collab 1 [("command", .string "true")] = .ret (some demo_action) ∧
      (demo_action.uid = 0 ∧ demo_action.gid = 0 ∧
        ∀ (W : World) (uevent : udev_device) (f : Option String) (fargs : List String),
          Call.execvp f fargs ∈ (execute W demo_action uevent).trace →
          ∃ pre post,
            (execute W demo_action uevent).trace = pre ++ Call.util_set_cred 0 0 :: post ∧
            Call.execvp f fargs ∈ post ∧ ∀ f1 fargs1, Call.execvp f1 fargs1 ∉ pre) :=
  ⟨by decide, by decide, by decide,
    setup_no_uid_gid_zero_credentials demo_collab 1 [("command", .string "true")]
      demo_action (by decide) (by decide) (by decide)⟩

/-- C7: for a configuration with a valid command, no `env`, a `uid` given as
a user name or an integer and a `gid` absent or given as a group name or an
integer, when every lookup needed succeeds, `setup` returns a template whose
uid is the uid of the named user or the integer given, and whose gid is the
configured gid when there is one, else the primary gid of that user.  An integer
is stored as `uid_t`, so a uid in the range of `uid_t` is stored unchanged;
for `uid = 1000` and no `gid` the gid is the primary gid the lookup gives for
1000. -/
theorem setup_resolves_uid_gid (C : Collab) (fuel : Nat) (setting : config_group)
    (cmd : String) (raw : List String) (vec : List subst_vec)
    (uid : config_setting_t) (gid : Option config_setting_t)
    (hcmd : config_setting_get_member setting "command" = some (.string cmd))
    (hparse : C.g_shell_parse_argv cmd = some raw)
    (htok : tokenize_args C raw = .ok vec)
    (henv : config_setting_get_member setting "env" = none)
    (huid : config_setting_get_member setting "uid" = some uid)
    (hgid : config_setting_get_member setting "gid" = gid)
    (hukind : is_name_or_int uid = true)
    (hgkind : ∀ g, gid = some g → is_name_or_int g = true)
    (hlook : lookups_succeed C uid gid) :
    setup C fuel setting =
        .ret (some { argv := vec, envc := 0, envp := [], uid := spec_uid C uid,
                     gid := spec_gid C uid gid }) ∧
      (∀ n : Int, uid = .int n → 0 ≤ n → n < ID_MOD → (spec_uid C uid : Int) = n) ∧
      (uid = .int 1000 → gid = none →
        spec_uid C uid = 1000 ∧ spec_gid C uid gid = (C.util_get_user_by_uid 1000).2) := by
  obtain ⟨hl1, hl2, hl3⟩ := hlook
  refine ⟨?_, ?_, ?_⟩
  · simp only [setup, hcmd, henv, huid, hgid, setup_argv, config_setting_require_string,
      hparse, htok, setup_env, zalloc_action]
    cases uid with
    | string user =>
      have hu := hl1 user rfl
      cases gid with
      | none => simp [setup_uid, setup_gid, setup_uid_name, setup_uid_int, setup_gid_name,
          setup_gid_int, config_setting_require_int, config_setting_get_int, hu, spec_uid,
          spec_gid, ENOENT]
      | some g =>
        cases g with
        | string grname =>
          have hg := hl3 grname rfl
          simp [setup_uid, setup_gid, setup_uid_name, setup_uid_int, setup_gid_name,
          setup_gid_int, config_setting_require_int, config_setting_get_int, hu, hg, spec_uid,
          spec_gid, ENOENT]
        | int m => simp [setup_uid, setup_gid, setup_uid_name, setup_uid_int, setup_gid_name,
          setup_gid_int, config_setting_require_int, config_setting_get_int, hu, spec_uid,
          spec_gid, ENOENT]
        | aggregate elems => exact absurd (hgkind _ rfl) (by simp [is_name_or_int])
        | other => exact absurd (hgkind _ rfl) (by simp [is_name_or_int])
    | int n =>
      cases gid with
      | none =>
        have hu := hl2 n rfl rfl
        simp [setup_uid, setup_gid, setup_uid_name, setup_uid_int, setup_gid_name,
          setup_gid_int, config_setting_require_int, config_setting_get_int, hu, spec_uid,
          spec_gid, ENOENT]
      | some g =>
        cases g with
        | string grname =>
          have hg := hl3 grname rfl
          simp [setup_uid, setup_gid, setup_uid_name, setup_uid_int, setup_gid_name,
          setup_gid_int, config_setting_require_int, config_setting_get_int, hg, spec_uid,
          spec_gid, ENOENT]
        | int m => simp [setup_uid, setup_gid, setup_uid_name, setup_uid_int, setup_gid_name,
          setup_gid_int, config_setting_require_int, config_setting_get_int, spec_uid,
          spec_gid, ENOENT]
        | aggregate elems => exact absurd (hgkind _ rfl) (by simp [is_name_or_int])
        | other => exact absurd (hgkind _ rfl) (by simp [is_name_or_int])
    | aggregate elems => exact absurd hukind (by simp [is_name_or_int])
    | other => exact absurd hukind (by simp [is_name_or_int])
  · intro n hn h0 h1
    subst hn
    simp only [spec_uid, to_id]
    rw [Int.emod_eq_of_lt h0 h1]
    exact Int.toNat_of_nonneg h0
  · intro h1 h2
    subst h1
    subst h2
    exact ⟨show to_id 1000 = 1000 by decide, rfl⟩

/-- Witness of C7: `uid = 1000` and no `gid`; user 1000 has primary group 100. -/
theorem setup_resolves_uid_gid_witness :
    config_setting_get_member [("command", .string "true"), ("uid", .int 1000)] "command" =
        some (.string "true") ∧
      config_setting_get_member [("command", .string "true"), ("uid", .int 1000)] "env" =
        none ∧
      config_setting_get_member [("command", .string "true"), ("uid", .int 1000)] "gid" =
        none ∧
      lookups_succeed demo_collab (.int 1000) none ∧
      (setup demo_collab 1 [("command", .string "true"), ("uid", .int 1000)] =
          .ret (some { argv := [⟨"true"⟩], envc := 0, envp := [], uid := 1000, gid := 100 }) ∧
        (∀ n : Int, config_setting_t.int 1000 = .int n → 0 ≤ n → n < ID_MOD →
          (spec_uid demo_collab (.int 1000) : Int) = n) ∧
        ((config_setting_t.int 1000 = .int 1000 → (none : Option config_setting_t) = none →
          spec_uid demo_collab (.int 1000) = 1000 ∧
            spec_gid demo_collab (.int 1000) none = (demo_collab.util_get_user_by_uid 1000).2))) :=
  ⟨by decide, by decide, by decide, ⟨fun _ _ => rfl, fun _ _ _ => rfl, fun _ _ => rfl⟩,
    setup_resolves_uid_gid demo_collab 1 [("command", .string "true"), ("uid", .int 1000)]
      "true" ["true"] [⟨"true"⟩] (.int 1000) none (by decide) rfl rfl (by decide) (by decide)
      (by decide) rfl (fun _ h => nomatch h)
      ⟨fun _ _ => rfl, fun _ _ _ => rfl, fun _ _ => rfl⟩⟩

end ExecAction
